import Mathlib

/-!
Shallow embedding of the session-authentication core of meilisearch-ui:
the credential configuration and predicates of src/lib/auth.ts, the
continuous guard of src/hooks/useAuthGuard.ts, and the route entry gate
of the root route beforeLoad hook.
-/

namespace MeiliAuth

/-- Deployment configuration: the two build-time environment values
VITE_AUTH_USERNAME and VITE_AUTH_PASSWORD. In JavaScript these are
`string | undefined`; `none` models an unset variable. -/
structure Config where
  username : Option String
  password : Option String
deriving DecidableEq

/-- JavaScript truthiness of a `string | undefined` value:
`undefined` and the empty string are falsy. -/
def truthy : Option String → Bool
  | none => false
  | some s => s != ""

/-- The sessionStorage key holding the authentication state
(src/lib/auth.ts, AUTH_SESSION_KEY). -/
def AUTH_SESSION_KEY : String := "meilisearch-ui-auth"

/-- The marker value written by a successful login. -/
def authenticatedMarker : String := "authenticated"

/-- Contents of sessionStorage at AUTH_SESSION_KEY, as `getItem`
returns it: `none` models `null` (key absent). -/
abbrev SessionFlag := Option String

/-- src/lib/auth.ts isAuthRequired: `!!(username && password)`. -/
def isAuthRequired (cfg : Config) : Bool :=
  truthy cfg.username && truthy cfg.password

/-- src/lib/auth.ts isAuthenticated: open access when auth is not
required, else compare the stored flag with "authenticated". -/
def isAuthenticated (cfg : Config) (st : SessionFlag) : Bool :=
  if !isAuthRequired cfg then true
  else st == some authenticatedMarker

/-- One observable side effect performed by the guard code:
a store update (setAuthenticated) or a router navigation. -/
inductive Effect where
  | setAuthenticated (value : Bool)
  | navigate (dest : String) (replace : Bool)
deriving DecidableEq

/-- src/hooks/useAuthGuard.ts checkAuth: when
`isAuthRequired() && !isAuthenticated()`, set the shared authenticated
flag to false and then navigate to "/login" with replace; otherwise do
nothing. The result lists the effects in the order performed. -/
def checkAuth (cfg : Config) (st : SessionFlag) : List Effect :=
  if isAuthRequired cfg && !isAuthenticated cfg st then
    [Effect.setAuthenticated false, Effect.navigate "/login" true]
  else []

/-- The immediate check performed on mount (useAuthGuard line 41):
it calls checkAuth. -/
def mountCheck (cfg : Config) (st : SessionFlag) : List Effect :=
  checkAuth cfg st

/-- The recurring timer callback (useAuthGuard lines 45-47):
it calls checkAuth. -/
def timerTick (cfg : Config) (st : SessionFlag) : List Effect :=
  checkAuth cfg st

/-- The storage event listener (useAuthGuard lines 50-59): for an event
whose key is AUTH_SESSION_KEY or null it calls checkAuth, otherwise it
does nothing. -/
def handleStorageChange (cfg : Config) (st : SessionFlag)
    (eventKey : Option String) : List Effect :=
  if eventKey = some AUTH_SESSION_KEY ∨ eventKey = none then
    checkAuth cfg st
  else []

/-- C1: the validity check, run identically by the mount-time check, the
timer tick and the storage-change listener, computes
isAuthRequired() && !isAuthenticated(); when true the guard sets the
shared authenticated flag to false and then issues a navigation replace
to "/login", and when false it performs no state update and no
navigation. -/
theorem checkAuth_spec (cfg : Config) (st : SessionFlag) :
    (mountCheck cfg st = checkAuth cfg st ∧
     timerTick cfg st = checkAuth cfg st ∧
     handleStorageChange cfg st (some AUTH_SESSION_KEY) = checkAuth cfg st ∧
     handleStorageChange cfg st none = checkAuth cfg st) ∧
    ((isAuthRequired cfg && !isAuthenticated cfg st) = true →
      checkAuth cfg st =
        [Effect.setAuthenticated false, Effect.navigate "/login" true]) ∧
    ((isAuthRequired cfg && !isAuthenticated cfg st) = false →
      checkAuth cfg st = []) := by
  refine ⟨⟨rfl, rfl, by simp [handleStorageChange], by simp [handleStorageChange]⟩, ?_, ?_⟩ <;>
    intro h <;> simp [checkAuth, h]

/-- Witness for checkAuth_spec at a configured credential pair: with the
flag absent the guard trips, with the marker present it does nothing. -/
theorem checkAuth_spec_witness :
    checkAuth ⟨some "admin", some "secret"⟩ none =
      [Effect.setAuthenticated false, Effect.navigate "/login" true] ∧
    checkAuth ⟨some "admin", some "secret"⟩ (some "authenticated") = [] :=
  ⟨(checkAuth_spec ⟨some "admin", some "secret"⟩ none).2.1 (by decide),
   (checkAuth_spec ⟨some "admin", some "secret"⟩ (some "authenticated")).2.2 (by decide)⟩

/-- C2: an empty or absent expected username or password makes
isAuthRequired() false and isAuthenticated() true regardless of the
stored flag; with both values non-empty, isAuthenticated() is true
exactly when the stored flag equals the authenticated marker. -/
theorem isAuthenticated_config_spec (cfg : Config) (st : SessionFlag) :
    (¬(truthy cfg.username = true ∧ truthy cfg.password = true) →
      isAuthRequired cfg = false ∧ isAuthenticated cfg st = true) ∧
    (truthy cfg.username = true → truthy cfg.password = true →
      (isAuthenticated cfg st = true ↔ st = some authenticatedMarker)) := by
  constructor
  · intro h
    have hreq : isAuthRequired cfg = false := by
      cases hu : truthy cfg.username <;> cases hp : truthy cfg.password <;>
        simp_all [isAuthRequired]
    simp [isAuthenticated, hreq]
  · intro hu hp
    simp [isAuthenticated, isAuthRequired, hu, hp]

/-- Witness for isAuthenticated_config_spec: an absent password disables
auth and opens access; a configured pair authenticates exactly on the
marker. -/
theorem isAuthenticated_config_witness :
    (isAuthRequired ⟨some "admin", none⟩ = false ∧
     isAuthenticated ⟨some "admin", none⟩ none = true) ∧
    (isAuthenticated ⟨some "admin", some "secret"⟩ (some "authenticated") = true ↔
      (some "authenticated" : SessionFlag) = some authenticatedMarker) :=
  ⟨(isAuthenticated_config_spec ⟨some "admin", none⟩ none).1 (by decide),
   (isAuthenticated_config_spec ⟨some "admin", some "secret"⟩
      (some "authenticated")).2 (by decide) (by decide)⟩

/-- src/lib/auth.ts login, parametric over the one-way digest function
used for the password comparison (the source applies SHA-256 through the
Web Crypto API to both the candidate and the expected password). Returns
the boolean result and the sessionStorage flag after the call. -/
def login (hash : String → String) (cfg : Config)
    (username password : String) (st : SessionFlag) : Bool × SessionFlag :=
  if !isAuthRequired cfg then (true, some authenticatedMarker)
  else
    let usernameMatch := cfg.username == some username
    let passwordMatch := cfg.password.map hash == some (hash password)
    if usernameMatch && passwordMatch then (true, some authenticatedMarker)
    else (false, st)

/-- src/lib/auth.ts logout: remove AUTH_SESSION_KEY unconditionally. -/
def logout (_st : SessionFlag) : SessionFlag := none

/-- C3: with a configured credential pair, login with the correct
username and password sets the flag and returns true; a wrong password
(under an injective digest) or a wrong username returns false and
leaves the session state exactly as it was. -/
theorem login_spec (hash : String → String) (hinj : Function.Injective hash)
    (eu ep : String) (heu : eu ≠ "") (hep : ep ≠ "") (st : SessionFlag) :
    login hash ⟨some eu, some ep⟩ eu ep st = (true, some authenticatedMarker) ∧
    (∀ p, p ≠ ep → login hash ⟨some eu, some ep⟩ eu p st = (false, st)) ∧
    (∀ u, u ≠ eu → ∀ p, login hash ⟨some eu, some ep⟩ u p st = (false, st)) := by
  have hreq : isAuthRequired ⟨some eu, some ep⟩ = true := by
    simp [isAuthRequired, truthy, heu, hep]
  refine ⟨?_, ?_, ?_⟩
  · simp [login, hreq]
  · intro p hp
    have : hash ep ≠ hash p := fun h => hp (hinj h).symm
    simp [login, hreq, this]
  · intro u hu p
    simp only [login, hreq, Bool.not_true, Bool.false_eq_true, if_false]
    simp
    intro h
    exact (hu h.symm).elim

/-- Witness for login_spec with the identity digest and the credential
pair (admin, secret): correct credentials succeed, a wrong password and
a wrong username fail and keep the flag absent. -/
theorem login_spec_witness :
    login id ⟨some "admin", some "secret"⟩ "admin" "secret" none =
      (true, some authenticatedMarker) ∧
    login id ⟨some "admin", some "secret"⟩ "admin" "wrong" none = (false, none) ∧
    login id ⟨some "admin", some "secret"⟩ "guest" "secret" none = (false, none) := by
  have h := login_spec id (fun _ _ hid => hid) "admin" "secret"
    (by decide) (by decide) none
  exact ⟨h.1, h.2.1 "wrong" (by decide), h.2.2 "guest" (by decide) "secret"⟩

/-- C8: with authentication required, a successful login makes
isAuthenticated() true, logging out afterwards makes it false, and
logout is idempotent. -/
theorem login_logout_roundtrip (hash : String → String) (cfg : Config)
    (hreq : isAuthRequired cfg = true) (u p : String) (st : SessionFlag)
    (hsucc : (login hash cfg u p st).1 = true) :
    isAuthenticated cfg (login hash cfg u p st).2 = true ∧
    isAuthenticated cfg (logout (login hash cfg u p st).2) = false ∧
    logout (logout st) = logout st := by
  have hstate : (login hash cfg u p st).2 = some authenticatedMarker := by
    unfold login at hsucc ⊢
    rw [hreq] at hsucc ⊢
    simp only [Bool.not_true, Bool.false_eq_true, if_false] at hsucc ⊢
    split at hsucc
    next h => simp [h]
    next => simp at hsucc
  rw [hstate]
  refine ⟨?_, ?_, rfl⟩
  · simp [isAuthenticated, hreq]
  · simp [isAuthenticated, logout, hreq]

/-- Witness for login_logout_roundtrip at the pair (admin, secret) with
the identity digest. -/
theorem login_logout_roundtrip_witness :
    isAuthenticated ⟨some "admin", some "secret"⟩
      (login id ⟨some "admin", some "secret"⟩ "admin" "secret" none).2 = true ∧
    isAuthenticated ⟨some "admin", some "secret"⟩
      (logout (login id ⟨some "admin", some "secret"⟩ "admin" "secret" none).2) = false := by
  have h := login_logout_roundtrip id ⟨some "admin", some "secret"⟩
    (by decide) "admin" "secret" none (by decide)
  exact ⟨h.1, h.2.1⟩

/-- Outcome of the root route beforeLoad gate: either the navigation is
allowed or a redirect is thrown, optionally carrying the requested path
in its search parameter. -/
inductive RouteResult where
  | allow
  | redirect (dest : String) (searchRedirect : Option String)
deriving DecidableEq

/-- The root route beforeLoad hook (src/routes/__root.tsx): when auth is
required and the session is not authenticated, allow "/login" and
redirect every other path to "/login" carrying the requested path;
otherwise, redirect "/login" to "/" when authenticated, and allow
everything else. -/
def beforeLoad (cfg : Config) (st : SessionFlag) (pathname : String) :
    RouteResult :=
  if isAuthRequired cfg && !isAuthenticated cfg st then
    if pathname == "/login" then RouteResult.allow
    else RouteResult.redirect "/login" (some pathname)
  else if pathname == "/login" && isAuthenticated cfg st then
    RouteResult.redirect "/" none
  else RouteResult.allow

/-- Counterexample to C4: with credentials configured and the session
authenticated, a navigation to "/login" is not allowed; the gate throws
a redirect to "/". -/
theorem beforeLoad_login_authenticated_redirects :
    beforeLoad ⟨some "admin", some "secret"⟩ (some "authenticated") "/login" =
      RouteResult.redirect "/" none ∧
    beforeLoad ⟨some "admin", some "secret"⟩ (some "authenticated") "/login" ≠
      RouteResult.allow := by
  refine ⟨by decide, by decide⟩

/-- C4 amended: a navigation to "/login" is allowed exactly when
isAuthenticated() is false; when isAuthenticated() is true the gate
redirects to the default landing "/" instead. -/
theorem beforeLoad_login_spec (cfg : Config) (st : SessionFlag) :
    beforeLoad cfg st "/login" =
      if isAuthenticated cfg st then RouteResult.redirect "/" none
      else RouteResult.allow := by
  unfold beforeLoad
  cases hreq : isAuthRequired cfg with
  | false =>
    have : isAuthenticated cfg st = true := by simp [isAuthenticated, hreq]
    simp [hreq, this]
  | true =>
    cases hauth : isAuthenticated cfg st <;> simp [hreq, hauth]

/-- C5: when the target path is not "/login" and
isAuthRequired() && !isAuthenticated() holds, the gate aborts the
navigation and redirects to "/login" carrying the requested path as the
return target. -/
theorem beforeLoad_redirect_spec (cfg : Config) (st : SessionFlag)
    (pathname : String) (hpath : pathname ≠ "/login")
    (hreq : isAuthRequired cfg = true)
    (hauth : isAuthenticated cfg st = false) :
    beforeLoad cfg st pathname =
      RouteResult.redirect "/login" (some pathname) := by
  simp [beforeLoad, hreq, hauth, hpath]

/-- Witness for beforeLoad_redirect_spec: an unauthenticated navigation
to "/ins/0" is redirected to the login surface carrying "/ins/0". -/
theorem beforeLoad_redirect_witness :
    beforeLoad ⟨some "admin", some "secret"⟩ none "/ins/0" =
      RouteResult.redirect "/login" (some "/ins/0") :=
  beforeLoad_redirect_spec ⟨some "admin", some "secret"⟩ none "/ins/0"
    (by decide) (by decide) (by decide)

/-- JavaScript String.prototype.startsWith: the search string is a
prefix of the receiver. -/
def jsStartsWith (s searchString : String) : Bool :=
  searchString.data.isPrefixOf s.data

/-- The effective base URL of src/lib/auth.ts getRedirectUrl:
`import.meta.env.BASE_URL || "/"` (an unset or empty value falls back
to "/"). -/
def effectiveBaseUrl (baseUrlEnv : Option String) : String :=
  match baseUrlEnv with
  | some b => if b == "" then "/" else b
  | none => "/"

/-- src/lib/auth.ts getRedirectUrl: read the redirect query parameter;
return it when it is truthy and starts with the base URL, otherwise
return the base URL. -/
def getRedirectUrl (baseUrlEnv redirectParam : Option String) : String :=
  let baseUrl := effectiveBaseUrl baseUrlEnv
  match redirectParam with
  | some r => if r != "" && jsStartsWith r baseUrl then r else baseUrl
  | none => baseUrl

/-- Any list is a prefix of itself under the executable isPrefixOf. -/
theorem isPrefixOf_self {α : Type} [DecidableEq α] :
    ∀ l : List α, List.isPrefixOf l l = true
  | [] => rfl
  | a :: t => by simp [List.isPrefixOf, isPrefixOf_self t]

/-- C7: a redirect target that does not start with the application base
URL is rejected in favour of the base URL, and every value produced by
getRedirectUrl starts with the base URL — no target outside the
application can result. -/
theorem getRedirectUrl_spec (baseUrlEnv redirectParam : Option String) :
    (∀ r, redirectParam = some r →
      jsStartsWith r (effectiveBaseUrl baseUrlEnv) = false →
      getRedirectUrl baseUrlEnv redirectParam = effectiveBaseUrl baseUrlEnv) ∧
    jsStartsWith (getRedirectUrl baseUrlEnv redirectParam)
      (effectiveBaseUrl baseUrlEnv) = true := by
  constructor
  · intro r hr hpre
    subst hr
    simp [getRedirectUrl, hpre]
  · have hself : jsStartsWith (effectiveBaseUrl baseUrlEnv)
        (effectiveBaseUrl baseUrlEnv) = true := isPrefixOf_self _
    unfold getRedirectUrl
    match redirectParam with
    | none => exact hself
    | some r =>
      by_cases hcond : (r != "" && jsStartsWith r (effectiveBaseUrl baseUrlEnv)) = true
      · simp only [hcond, if_true]
        exact (Bool.and_eq_true _ _ |>.mp hcond).2
      · simp only [Bool.not_eq_true] at hcond
        simp [hcond, hself]

/-- Witness for getRedirectUrl_spec: a foreign target is rejected and
the result falls back to the base URL "/". -/
theorem getRedirectUrl_spec_witness :
    getRedirectUrl none (some "https://evil.example") = "/" ∧
    jsStartsWith (getRedirectUrl none (some "https://evil.example")) "/" = true := by
  have h := getRedirectUrl_spec none (some "https://evil.example")
  exact ⟨h.1 "https://evil.example" rfl (by decide), h.2⟩

/-- The observable footprint of mounting the useAuthGuard hook: the
effects performed by the immediate check and whether the recurring timer
and the storage listener were registered. -/
structure GuardMount where
  effects : List Effect
  timerRegistered : Bool
  listenerRegistered : Bool
deriving DecidableEq

/-- src/hooks/useAuthGuard.ts useAuthGuard effect body: with
skipMonitoring true it returns before doing anything; otherwise it runs
checkAuth once, starts the interval and registers the storage
listener. -/
def useAuthGuard (skipMonitoring : Bool) (cfg : Config) (st : SessionFlag) :
    GuardMount :=
  if skipMonitoring then
    { effects := [], timerRegistered := false, listenerRegistered := false }
  else
    { effects := mountCheck cfg st,
      timerRegistered := true, listenerRegistered := true }

/-- C9: mounting the guard with the skip flag true issues no redirect,
registers no timer and no storage listener, performing zero side
effects, for every configuration and session state. -/
theorem useAuthGuard_skip_unarmed (cfg : Config) (st : SessionFlag) :
    useAuthGuard true cfg st =
      { effects := [], timerRegistered := false, listenerRegistered := false } :=
  rfl

/-- src/hooks/useAuthGuard.ts validateSession: returns true when auth is
not required; otherwise evaluates isAuthenticated() and, when it is
false, additionally performs logout() before returning. The result
pairs the returned boolean with the session state after the call. -/
def validateSession (cfg : Config) (st : SessionFlag) : Bool × SessionFlag :=
  if !isAuthRequired cfg then (true, st)
  else
    let isValid := isAuthenticated cfg st
    if !isValid then (isValid, logout st) else (isValid, st)

/-- C10: validateSession is not a pure read — with auth required and the
flag different from the authenticated marker it returns false and clears
the SessionFlag; with auth not required, or the marker present, it
returns true and leaves the storage unchanged. -/
theorem validateSession_spec (cfg : Config) (st : SessionFlag) :
    (isAuthRequired cfg = true → st ≠ some authenticatedMarker →
      validateSession cfg st = (false, none)) ∧
    (isAuthRequired cfg = false → validateSession cfg st = (true, st)) ∧
    (isAuthRequired cfg = true → st = some authenticatedMarker →
      validateSession cfg st = (true, st)) := by
  refine ⟨?_, ?_, ?_⟩
  · intro hreq hne
    simp [validateSession, isAuthenticated, logout, hreq, hne]
  · intro hreq
    simp [validateSession, hreq]
  · intro hreq heq
    simp [validateSession, isAuthenticated, hreq, heq]

/-- Witness for validateSession_spec: a tampered flag is cleared with a
false result, an absent requirement and a present marker both leave the
storage untouched with a true result. -/
theorem validateSession_spec_witness :
    validateSession ⟨some "admin", some "secret"⟩ (some "tampered") = (false, none) ∧
    validateSession ⟨none, none⟩ (some "tampered") = (true, some "tampered") ∧
    validateSession ⟨some "admin", some "secret"⟩ (some "authenticated") =
      (true, some "authenticated") := by
  refine ⟨(validateSession_spec _ _).1 (by decide) (by decide),
    (validateSession_spec _ _).2.1 (by decide),
    (validateSession_spec _ _).2.2 (by decide) (by decide)⟩

/-- The sessionStorage area as the platform exposes it: `none` models a
storage that is unavailable (accessing it throws, e.g. a SecurityError
when the browser blocks site data); `some st` an available storage whose
auth key holds `st`. -/
abbrev Storage := Option SessionFlag

/-- Reading the flag through the platform: an unavailable storage
throws, an available one returns the item (or null). -/
def getItemE (store : Storage) : Except String SessionFlag :=
  match store with
  | none => Except.error "SecurityError"
  | some st => Except.ok st

/-- isAuthenticated over fallible storage. The source
(src/lib/auth.ts isAuthenticated) contains no try/catch, so a failing
read propagates; when auth is not required, storage is never read. -/
def isAuthenticatedE (cfg : Config) (store : Storage) : Except String Bool :=
  if !isAuthRequired cfg then Except.ok true
  else (getItemE store).map (fun st => st == some authenticatedMarker)

/-- The guard validity check over fallible storage. The source
(useAuthGuard checkAuth) adds no error handling either: isAuthRequired()
is evaluated first (short-circuit), then isAuthenticated() whose failure
propagates. -/
def checkAuthE (cfg : Config) (store : Storage) : Except String (List Effect) :=
  if isAuthRequired cfg then
    (isAuthenticatedE cfg store).map fun auth =>
      if !auth then [Effect.setAuthenticated false, Effect.navigate "/login" true]
      else []
  else Except.ok []

/-- Counterexample to C6: with credentials configured and the storage
unavailable, isAuthenticated() does not return false as if the flag were
absent — the read failure propagates as an error, out of the guard
check path as well. -/
theorem storageFailure_propagates :
    isAuthenticatedE ⟨some "admin", some "secret"⟩ none =
      Except.error "SecurityError" ∧
    checkAuthE ⟨some "admin", some "secret"⟩ none =
      Except.error "SecurityError" ∧
    isAuthenticatedE ⟨some "admin", some "secret"⟩ none ≠
      Except.ok false := by
  refine ⟨rfl, rfl, ?_⟩
  intro h
  simp [isAuthenticatedE, getItemE, isAuthRequired, truthy, Except.map] at h

/-- C6 amended: with an available storage, an absent or non-marker flag
makes isAuthenticated() return false whenever auth is required, the
trigger paths match the pure model and no error occurs; when auth is not
required the storage is never read and no error occurs either; but the
code contains no exception handling, so an unavailable storage read
propagates its error out of isAuthenticated() and the guard check. -/
theorem isAuthenticatedE_spec (cfg : Config) (store : Storage) :
    (∀ st, store = some st →
      isAuthenticatedE cfg store = Except.ok (isAuthenticated cfg st) ∧
      checkAuthE cfg store = Except.ok (checkAuth cfg st)) ∧
    (isAuthRequired cfg = false →
      isAuthenticatedE cfg store = Except.ok true ∧
      checkAuthE cfg store = Except.ok []) ∧
    (store = none → isAuthRequired cfg = true →
      isAuthenticatedE cfg store = Except.error "SecurityError" ∧
      checkAuthE cfg store = Except.error "SecurityError") := by
  refine ⟨?_, ?_, ?_⟩
  · intro st hst
    subst hst
    cases hreq : isAuthRequired cfg with
    | false =>
      simp [isAuthenticatedE, checkAuthE, isAuthenticated, checkAuth, hreq]
    | true =>
      simp [isAuthenticatedE, checkAuthE, isAuthenticated, checkAuth,
        getItemE, hreq, Except.map]
  · intro hreq
    simp [isAuthenticatedE, checkAuthE, hreq]
  · intro hst hreq
    subst hst
    simp [isAuthenticatedE, checkAuthE, getItemE, hreq, Except.map]

/-- Witness for isAuthenticatedE_spec: an available storage with the
flag absent yields false without an error; auth not configured never
reads the storage; an unavailable storage propagates the error. -/
theorem isAuthenticatedE_spec_witness :
    (isAuthenticatedE ⟨some "admin", some "secret"⟩ (some none) =
       Except.ok false ∧
     checkAuthE ⟨some "admin", some "secret"⟩ (some none) =
       Except.ok [Effect.setAuthenticated false, Effect.navigate "/login" true]) ∧
    isAuthenticatedE ⟨none, none⟩ none = Except.ok true ∧
    checkAuthE ⟨some "admin", some "secret"⟩ none =
      Except.error "SecurityError" := by
  refine ⟨?_, ?_, ?_⟩
  · have h := (isAuthenticatedE_spec ⟨some "admin", some "secret"⟩ (some none)).1
      none rfl
    exact ⟨h.1, h.2⟩
  · exact ((isAuthenticatedE_spec ⟨none, none⟩ none).2.1 (by decide)).1
  · exact ((isAuthenticatedE_spec ⟨some "admin", some "secret"⟩ none).2.2
      rfl (by decide)).2

end MeiliAuth
